import Mathlib

/-!
Shallow embedding of the supply-chain-finance core of the repository:
`models/__init__.py`, `routers/orders.py`, `routers/invoices.py`,
`routers/loans.py`, `routers/ledger.py`, `services/ledger_service.py` and
`services/loan_service.py`.

Modelling conventions:
* Monetary amounts, rates and scores are exact rationals standing for the
  Python float values (the literals the claims exercise, e.g. `1.2`, are
  written as the rationals `12 / 10`).
* Datetimes are integers counting days; `now` is passed explicitly where
  the Python code calls `datetime.now()` or `datetime.utcnow()`, and the
  second-resolution timestamp embedded in an invoice number is rendered
  as `toString now`.
* Database rows live in lists.  `Model.create` appends a row carrying the
  next id from a counter; `row.save()` replaces the stored row having the
  same id.  `Model.get_or_none` is `List.find?` on the id.
* Each HTTP handler returns the post-request database paired with either
  a value or an error, because tortoise writes issued before an exception
  stay committed.  `HTTPException(code, detail)` is modelled by
  `ApiError.http code detail`.  The name `OrderStatus` is used but never
  imported in `routers/invoices.py`, so the statement
  `order.status = OrderStatus.PAID` (lines 122 and 172) raises a Python
  `NameError` at run time; this outcome is modelled by
  `ApiError.nameError "OrderStatus"`, and every write the handler issued
  before reaching that statement is kept, every later write is dropped.
* The schema is generated from the models, so an insert that violates a
  `unique=True` column (the `invoice_number` field of `models.Invoice`)
  raises `IntegrityError`; this is modelled by `ApiError.integrityError`
  with nothing persisted by the failing handler.
-/

namespace SCF

/-- Order status enum from `models/__init__.py` (`OrderStatus`). -/
inductive OrderStatus where
  | pending
  | confirmed
  | paid
deriving DecidableEq, Repr

/-- Invoice status enum from `models/__init__.py` (`InvoiceStatus`); the
Python member `PARTIAL` is rendered here as `partPaid`. -/
inductive InvoiceStatus where
  | unpaid
  | partPaid
  | paid
deriving DecidableEq, Repr

/-- Loan application status enum from `models/__init__.py`. -/
inductive LoanApplicationStatus where
  | pending
  | approved
  | rejected
deriving DecidableEq, Repr

/-- Loan status enum from `models/__init__.py` (`LoanStatus`). -/
inductive LoanStatus where
  | active
  | repaid
  | defaulted
deriving DecidableEq, Repr

/-- Ledger entry direction from `models/__init__.py` (`LedgerType`). -/
inductive LedgerType where
  | debit
  | credit
deriving DecidableEq, Repr

/-- User role enum from `models/__init__.py` (`UserRole`). -/
inductive UserRole where
  | admin
  | supplier
  | buyer
  | lender
deriving DecidableEq, Repr

/-- The fields of `models.User` that the core handlers read. -/
structure User where
  id : Nat
  role : UserRole
  isActive : Bool
deriving DecidableEq, Repr

/-- Model `models.Order`. -/
structure Order where
  id : Nat
  supplierId : Nat
  buyerId : Nat
  amount : ℚ
  status : OrderStatus
  orderDescription : Option String
deriving DecidableEq, Repr

/-- Model `models.Invoice`. -/
structure Invoice where
  id : Nat
  orderId : Nat
  dueDate : Int
  amount : ℚ
  status : InvoiceStatus
  invoiceNumber : String
  remainingAmount : ℚ
deriving DecidableEq, Repr

/-- Model `models.LoanApplication`. -/
structure LoanApplication where
  id : Nat
  applicantId : Nat
  invoiceId : Nat
  amountRequested : ℚ
  status : LoanApplicationStatus
  riskScore : Option ℚ
deriving DecidableEq, Repr

/-- Model `models.Loan`. -/
structure Loan where
  id : Nat
  applicationId : Nat
  lenderId : Nat
  interestRate : ℚ
  repaymentDate : Int
  amount : ℚ
  status : LoanStatus
deriving DecidableEq, Repr

/-- Model `models.AccountLedger`. -/
structure LedgerEntry where
  id : Nat
  entityId : Nat
  type : LedgerType
  amount : ℚ
  entryDescription : String
  referenceId : Option Nat
  referenceType : Option String
deriving DecidableEq, Repr

/-- The persistent store: one list per table plus the auto-increment
counters for the tables the core inserts into. -/
structure DB where
  orders : List Order
  invoices : List Invoice
  applications : List LoanApplication
  loans : List Loan
  ledger : List LedgerEntry
  nextInvoiceId : Nat
  nextLoanId : Nat
  nextLedgerId : Nat
  nextApplicationId : Nat
deriving DecidableEq, Repr

/-- Lookup `Order.get_or_none(id=i)`. -/
def DB.findOrder (db : DB) (i : Nat) : Option Order :=
  db.orders.find? fun o => o.id == i

/-- Lookup `Invoice.get_or_none(id=i)`. -/
def DB.findInvoice (db : DB) (i : Nat) : Option Invoice :=
  db.invoices.find? fun v => v.id == i

/-- Lookup `LoanApplication.get_or_none(id=i)`. -/
def DB.findApplication (db : DB) (i : Nat) : Option LoanApplication :=
  db.applications.find? fun a => a.id == i

/-- Lookup `Loan.get_or_none(id=i)`. -/
def DB.findLoan (db : DB) (i : Nat) : Option Loan :=
  db.loans.find? fun l => l.id == i

/-- Write `order.save()`: replace the stored row with the same id. -/
def DB.saveOrder (db : DB) (o : Order) : DB :=
  { db with orders := db.orders.map fun x => if x.id == o.id then o else x }

/-- Write `invoice.save()`. -/
def DB.saveInvoice (db : DB) (v : Invoice) : DB :=
  { db with invoices := db.invoices.map fun x => if x.id == v.id then v else x }

/-- Write `application.save()`. -/
def DB.saveApplication (db : DB) (a : LoanApplication) : DB :=
  { db with applications := db.applications.map fun x => if x.id == a.id then a else x }

/-- Write `loan.save()`. -/
def DB.saveLoan (db : DB) (l : Loan) : DB :=
  { db with loans := db.loans.map fun x => if x.id == l.id then l else x }

/-- Count `LoanApplication.filter(invoice_id=i, status=PENDING).count()`, used by
`update_invoice` and `check_loan_eligibility`. -/
def countPendingApplications (db : DB) (invoiceId : Nat) : Nat :=
  (db.applications.filter fun a =>
    a.invoiceId == invoiceId && a.status == LoanApplicationStatus.pending).length

/-- Outcome of a handler that does not return normally: an
`HTTPException(status_code, detail)`, the `NameError` raised by the
unimported name `OrderStatus` in `routers/invoices.py`, a tortoise
`DoesNotExist` escaping from a dangling foreign key, or the
`IntegrityError` raised by an insert that violates a unique database
constraint (the schema is generated from the models, so the
`unique=True` column `invoice_number` of `models.Invoice` is enforced
at the storage layer). -/
inductive ApiError where
  | http (statusCode : Nat) (detail : String)
  | nameError (name : String)
  | doesNotExist
  | integrityError (constraint : String)
deriving DecidableEq, Repr

instance {ε α : Type} [DecidableEq ε] [DecidableEq α] : DecidableEq (Except ε α) := fun a b =>
  match a, b with
  | .ok x, .ok y =>
      if h : x = y then isTrue (congrArg Except.ok h)
      else isFalse (fun hc => h (Except.ok.inj hc))
  | .error x, .error y =>
      if h : x = y then isTrue (congrArg Except.error h)
      else isFalse (fun hc => h (Except.error.inj hc))
  | .ok _, .error _ => isFalse (fun hc => Except.noConfusion hc)
  | .error _, .ok _ => isFalse (fun hc => Except.noConfusion hc)

/-- The dependency `get_current_active_user` from `routers/auth.py`:
raises 400 when the user is disabled. -/
def requireActive (u : User) : Except ApiError Unit :=
  if u.isActive then .ok () else .error (.http 400 "用户已禁用")

/-- The dependency `get_current_lender_user` from `routers/auth.py`:
an active user whose role is lender, else 403. -/
def requireLender (u : User) : Except ApiError Unit :=
  match requireActive u with
  | .error e => .error e
  | .ok _ =>
      if u.role = UserRole.lender then .ok ()
      else .error (.http 403 "需要贷款方权限")

/-- Service `services/ledger_service.record_transaction`: appends one ledger row
inside a transaction.  It performs no validation of any kind; in
particular the amount is not checked. -/
def record_transaction (db : DB) (entityId : Nat) (t : LedgerType) (amount : ℚ)
    (entryDescription : String) (referenceId : Option Nat) (referenceType : Option String) :
    DB × LedgerEntry :=
  let entry : LedgerEntry :=
    { id := db.nextLedgerId, entityId := entityId, type := t, amount := amount,
      entryDescription := entryDescription, referenceId := referenceId,
      referenceType := referenceType }
  ({ db with ledger := db.ledger ++ [entry], nextLedgerId := db.nextLedgerId + 1 }, entry)

/-- Service `services/ledger_service.record_debit`. -/
def record_debit (db : DB) (entityId : Nat) (amount : ℚ) (entryDescription : String)
    (referenceId : Option Nat) (referenceType : Option String) : DB × LedgerEntry :=
  record_transaction db entityId LedgerType.debit amount entryDescription referenceId referenceType

/-- Service `services/ledger_service.record_credit`. -/
def record_credit (db : DB) (entityId : Nat) (amount : ℚ) (entryDescription : String)
    (referenceId : Option Nat) (referenceType : Option String) : DB × LedgerEntry :=
  record_transaction db entityId LedgerType.credit amount entryDescription referenceId referenceType

/-- Request body of `POST /api/ledger/record` (`LedgerRecord` in
`routers/ledger.py`). -/
structure LedgerRecord where
  type : LedgerType
  amount : ℚ
  recordDescription : String
  referenceId : Option Nat
  referenceType : Option String
deriving DecidableEq, Repr

/-- The route `record_transaction` in `routers/ledger.py`
(`POST /api/ledger/record`): rejects a non-positive amount with 400, then
records a debit or a credit against the calling user. -/
def record_transaction_endpoint (db : DB) (currentUser : User) (r : LedgerRecord) :
    DB × Except ApiError LedgerEntry :=
  match requireActive currentUser with
  | .error e => (db, .error e)
  | .ok _ =>
      if r.amount ≤ 0 then (db, .error (.http 400 "金额必须大于0"))
      else if r.type = LedgerType.debit then
        let (db1, entry) := record_debit db currentUser.id r.amount r.recordDescription
          r.referenceId r.referenceType
        (db1, .ok entry)
      else
        let (db1, entry) := record_credit db currentUser.id r.amount r.recordDescription
          r.referenceId r.referenceType
        (db1, .ok entry)

/-- Request body of `PUT /api/orders/x` (`OrderUpdate` in
`routers/orders.py`). -/
structure OrderUpdate where
  status : Option OrderStatus
  updateDescription : Option String
deriving DecidableEq, Repr

/-- The handler `update_order` in `routers/orders.py`
(`PUT /api/orders/x`).  It applies whatever status the caller sends,
with no check of the current status; whenever the requested status is
`CONFIRMED` it creates one invoice (number `INV-<timestamp>-<orderId>`,
due in 30 days, amount and remaining amount copied from the order,
status `UNPAID`), again regardless of the current status.  The column
`invoice_number` is declared `unique=True` in `models/__init__.py`, so
when the generated number is already stored — the same order confirmed
twice within one timestamp second — `Invoice.create` raises
`IntegrityError`: the exception escapes before `order.save()` runs and
nothing persists. -/
def update_order (db : DB) (orderId : Nat) (ou : OrderUpdate) (currentUser : User)
    (now : Int) : DB × Except ApiError Order :=
  match requireActive currentUser with
  | .error e => (db, .error e)
  | .ok _ =>
  match db.findOrder orderId with
  | none => (db, .error (.http 404 "订单不存在"))
  | some order =>
    if currentUser.role = UserRole.supplier ∧ order.supplierId ≠ currentUser.id then
      (db, .error (.http 403 "无权更新该订单"))
    else if currentUser.role = UserRole.buyer ∧ order.buyerId ≠ currentUser.id then
      (db, .error (.http 403 "无权更新该订单"))
    else
      let order1 := match ou.status with
        | some st => { order with status := st }
        | none => order
      match ou.status with
      | some OrderStatus.confirmed =>
          let invNumber := "INV-" ++ toString now ++ "-" ++ toString order.id
          if db.invoices.any fun v => v.invoiceNumber == invNumber then
            (db, .error (.integrityError "invoice_number"))
          else
            let inv : Invoice :=
              { id := db.nextInvoiceId, orderId := order.id, dueDate := now + 30,
                amount := order.amount, status := InvoiceStatus.unpaid,
                invoiceNumber := invNumber, remainingAmount := order.amount }
            let db1 := { db with invoices := db.invoices ++ [inv],
                                 nextInvoiceId := db.nextInvoiceId + 1 }
            let order2 := match ou.updateDescription with
              | some d => if d = "" then order1 else { order1 with orderDescription := some d }
              | none => order1
            (db1.saveOrder order2, .ok order2)
      | _ =>
          let order2 := match ou.updateDescription with
            | some d => if d = "" then order1 else { order1 with orderDescription := some d }
            | none => order1
          (db.saveOrder order2, .ok order2)

/-- Request body of `PUT /api/invoices/x` (`InvoiceUpdate` in
`routers/invoices.py`). -/
structure InvoiceUpdate where
  status : Option InvoiceStatus
deriving DecidableEq, Repr

/-- The handler `update_invoice` in `routers/invoices.py`
(`PUT /api/invoices/x`).  When the requested status is `PAID` it
refuses only while a pending loan application references the invoice;
it never checks whether the invoice is already paid.  On the accepted
payment path the handler mutates the invoice in memory and then executes
`order.status = OrderStatus.PAID`, whose name `OrderStatus` is not
imported in this module, so a `NameError` is raised before any save or
ledger call runs and the database is left unchanged.  Any other
requested status is stored without validation. -/
def update_invoice (db : DB) (invoiceId : Nat) (iu : InvoiceUpdate) (currentUser : User) :
    DB × Except ApiError Invoice :=
  match requireActive currentUser with
  | .error e => (db, .error e)
  | .ok _ =>
  match db.findInvoice invoiceId with
  | none => (db, .error (.http 404 "发票不存在"))
  | some invoice =>
  match db.findOrder invoice.orderId with
  | none => (db, .error ApiError.doesNotExist)
  | some order =>
    if currentUser.role = UserRole.buyer ∧ order.buyerId ≠ currentUser.id then
      (db, .error (.http 403 "无权更新该发票"))
    else
      match iu.status with
      | some InvoiceStatus.paid =>
          if countPendingApplications db invoice.id > 0 then
            (db, .error (.http 400 "该发票有未处理的贷款申请，无法支付"))
          else
            (db, .error (.nameError "OrderStatus"))
      | some st =>
          let invoice1 := { invoice with status := st }
          (db.saveInvoice invoice1, .ok invoice1)
      | none =>
          (db.saveInvoice invoice, .ok invoice)

/-- The handler `mock_pay_invoice` in `routers/invoices.py`
(`POST /api/invoices/x/pay/mock`).  It refuses only an already-paid
invoice; it never checks for pending loan applications.  On the accepted
path it saves the invoice as paid and then executes
`order.status = OrderStatus.PAID`, which raises `NameError` (the name is
not imported), so the order update and both ledger calls never run: the
invoice alone is left mutated. -/
def mock_pay_invoice (db : DB) (invoiceId : Nat) (currentUser : User) :
    DB × Except ApiError Unit :=
  match requireActive currentUser with
  | .error e => (db, .error e)
  | .ok _ =>
  match db.findInvoice invoiceId with
  | none => (db, .error (.http 404 "发票不存在"))
  | some invoice =>
  match db.findOrder invoice.orderId with
  | none => (db, .error ApiError.doesNotExist)
  | some _ =>
    if invoice.status = InvoiceStatus.paid then
      (db, .error (.http 400 "发票已支付"))
    else
      let invoice1 := { invoice with status := InvoiceStatus.paid, remainingAmount := 0 }
      (db.saveInvoice invoice1, .error (.nameError "OrderStatus"))

/-- Service `services/loan_service.calculate_risk_score`, with the two datetimes
abstracted to day counts: when the referenced invoice does not resolve,
the score is the constant 50; otherwise the bracketed base-70 score,
clamped to the interval from 0 to 100. -/
def calculate_risk_score (db : DB) (application : LoanApplication) (now : Int) : ℚ :=
  match db.findInvoice application.invoiceId with
  | none => 50
  | some invoice =>
    let daysUntilDue := max (invoice.dueDate - now) 1
    let ratio := application.amountRequested / invoice.amount
    let score1 : ℚ :=
      if daysUntilDue < 30 then 70 + 15
      else if daysUntilDue < 60 then 70 + 10
      else if daysUntilDue < 90 then 70 + 5
      else 70
    let score2 : ℚ :=
      if ratio ≤ 8 / 10 then score1 + 10
      else if ratio ≤ 1 then score1 + 5
      else if ratio ≤ 12 / 10 then score1 - 5
      else score1 - 20
    max 0 (min 100 score2)

/-- Service `services/loan_service.check_loan_eligibility`: returns the
`(eligible, message)` pair, evaluating the five checks in source order
and stopping at the first failure. -/
def check_loan_eligibility (db : DB) (invoiceId : Nat) (amountRequested : ℚ) :
    Bool × String :=
  match db.findInvoice invoiceId with
  | none => (false, "发票不存在")
  | some invoice =>
    if invoice.status ≠ InvoiceStatus.unpaid then
      (false, "只有未支付的发票才能申请贷款")
    else
      let maxAllowed := invoice.amount * (12 / 10)
      if amountRequested > maxAllowed then
        (false, "申请金额不能超过发票金额的120% (最大允许: " ++ toString maxAllowed ++ ")")
      else if amountRequested ≤ 0 then
        (false, "申请金额必须大于0")
      else if countPendingApplications db invoiceId > 0 then
        (false, "该发票已有未处理的贷款申请")
      else
        (true, "符合贷款申请条件")

/-- Request body of `PUT /api/loans/applications/x`
(`LoanApplicationUpdate` in `routers/loans.py`): a mandatory status and
an optional risk score.  There is no field for an interest rate or a
repayment date. -/
structure LoanApplicationUpdate where
  status : LoanApplicationStatus
  riskScore : Option ℚ
deriving DecidableEq, Repr

/-- The handler `update_loan_application` in `routers/loans.py`
(`PUT /api/loans/applications/x`, lender only).  A non-pending
application is refused with 400.  The requested status is stored; when
it is `APPROVED` the handler creates one loan (lender = caller, rate
fixed at 5.0, repayment date now + 30 days, amount copied from the
application, status `ACTIVE`) and posts a credit to the applicant and a
debit to the lender for the requested amount, both referencing the loan.
The Python guard `if application_update.risk_score:` treats a zero score
as absent. -/
def update_loan_application (db : DB) (applicationId : Nat) (au : LoanApplicationUpdate)
    (currentUser : User) (now : Int) : DB × Except ApiError LoanApplication :=
  match requireLender currentUser with
  | .error e => (db, .error e)
  | .ok _ =>
  match db.findApplication applicationId with
  | none => (db, .error (.http 404 "贷款申请不存在"))
  | some application =>
    if application.status ≠ LoanApplicationStatus.pending then
      (db, .error (.http 400 "该贷款申请已处理"))
    else
      let app1 := { application with status := au.status }
      let app2 := match au.riskScore with
        | some r => if r = 0 then app1 else { app1 with riskScore := some r }
        | none => app1
      let db1 := db.saveApplication app2
      if app2.status = LoanApplicationStatus.approved then
        match db1.findInvoice application.invoiceId with
        | none => (db1, .error ApiError.doesNotExist)
        | some _ =>
          let loan : Loan :=
            { id := db1.nextLoanId, applicationId := application.id,
              lenderId := currentUser.id, interestRate := 5,
              repaymentDate := now + 30, amount := application.amountRequested,
              status := LoanStatus.active }
          let db2 := { db1 with loans := db1.loans ++ [loan],
                                nextLoanId := db1.nextLoanId + 1 }
          let (db3, _) := record_credit db2 application.applicantId
            application.amountRequested
            ("贷款批准: 申请ID " ++ toString application.id) (some loan.id) (some "loan")
          let (db4, _) := record_debit db3 currentUser.id application.amountRequested
            ("发放贷款: 申请ID " ++ toString application.id) (some loan.id) (some "loan")
          (db4, .ok app2)
      else (db1, .ok app2)

/-- The JSON body returned by a successful `repay_loan` call. -/
structure RepayResult where
  loanId : Nat
  amount : ℚ
  interest : ℚ
  totalRepaid : ℚ
deriving DecidableEq, Repr

/-- The handler `repay_loan` in `routers/loans.py`
(`PUT /api/loans/x/repay`).  A supplier or buyer may only repay a loan
whose application is their own; a non-active loan is refused with 400.
On success the loan is saved as `REPAID`, the total due is
`amount * (1 + rate / 100)`, and a debit to the applicant plus a credit
to the lender are posted, both referencing the loan. -/
def repay_loan (db : DB) (loanId : Nat) (currentUser : User) :
    DB × Except ApiError RepayResult :=
  match requireActive currentUser with
  | .error e => (db, .error e)
  | .ok _ =>
  match db.findLoan loanId with
  | none => (db, .error (.http 404 "贷款不存在"))
  | some loan =>
  match db.findApplication loan.applicationId with
  | none => (db, .error ApiError.doesNotExist)
  | some application =>
    if (currentUser.role = UserRole.supplier ∨ currentUser.role = UserRole.buyer) ∧
        application.applicantId ≠ currentUser.id then
      (db, .error (.http 403 "无权偿还该贷款"))
    else if loan.status ≠ LoanStatus.active then
      (db, .error (.http 400 "该贷款已偿还或违约"))
    else
      let loan1 := { loan with status := LoanStatus.repaid }
      let db1 := db.saveLoan loan1
      let totalAmount := loan.amount * (1 + loan.interestRate / 100)
      let (db2, _) := record_debit db1 application.applicantId totalAmount
        ("偿还贷款: 贷款ID " ++ toString loan.id) (some loan.id) (some "loan")
      let (db3, _) := record_credit db2 loan.lenderId totalAmount
        ("收到贷款还款: 贷款ID " ++ toString loan.id) (some loan.id) (some "loan")
      (db3, .ok { loanId := loan.id, amount := loan.amount,
                  interest := loan.amount * (loan.interestRate / 100),
                  totalRepaid := totalAmount })

/-- Verdicts of the loan eligibility gate under the names the
specification gives them (spec side of the refinement for claim C6). -/
inductive EligibilityVerdict where
  | invoiceNotFound
  | invoiceNotEligible
  | amountExceedsCeiling (ceiling : ℚ)
  | invalidAmount
  | duplicatePendingApplication
  | eligible
deriving DecidableEq, Repr

/-- Modelled from the claim wording for C6: the five ordered checks of
the eligibility gate, short-circuiting on the first failure, with the
ceiling check passing an amount exactly equal to 1.2 times the invoice
amount. -/
def eligibility_spec (db : DB) (invoiceId : Nat) (amountRequested : ℚ) :
    EligibilityVerdict :=
  match db.findInvoice invoiceId with
  | none => .invoiceNotFound
  | some invoice =>
    if invoice.status ≠ InvoiceStatus.unpaid then .invoiceNotEligible
    else if ¬ amountRequested ≤ invoice.amount * (12 / 10) then
      .amountExceedsCeiling (invoice.amount * (12 / 10))
    else if ¬ 0 < amountRequested then .invalidAmount
    else if 0 < countPendingApplications db invoiceId then .duplicatePendingApplication
    else .eligible

/-- The `(eligible, message)` pair the source function reports for each
verdict of the gate. -/
def eligibilityResult : EligibilityVerdict → Bool × String
  | .invoiceNotFound => (false, "发票不存在")
  | .invoiceNotEligible => (false, "只有未支付的发票才能申请贷款")
  | .amountExceedsCeiling c =>
      (false, "申请金额不能超过发票金额的120% (最大允许: " ++ toString c ++ ")")
  | .invalidAmount => (false, "申请金额必须大于0")
  | .duplicatePendingApplication => (false, "该发票已有未处理的贷款申请")
  | .eligible => (true, "符合贷款申请条件")

/-- Days-until-due bonus bracket of the risk score, as the claim C7
words it. -/
def daysBonus (daysUntilDue : Int) : ℚ :=
  if daysUntilDue < 30 then 15
  else if daysUntilDue < 60 then 10
  else if daysUntilDue < 90 then 5
  else 0

/-- Amount-ratio adjustment of the risk score, as the claim C7 words
it: ratio at most 0.8 earns plus 10, at most 1.0 plus 5, at most 1.2
minus 5, otherwise minus 20. -/
def ratioAdjustment (ratio : ℚ) : ℚ :=
  if ratio ≤ 8 / 10 then 10
  else if ratio ≤ 1 then 5
  else if ratio ≤ 12 / 10 then -5
  else -20

/-! Concrete fixtures used by the counterexamples and witnesses. -/

/-- An active supplier who owns the fixture orders. -/
def supplier1 : User := ⟨1, UserRole.supplier, true⟩

/-- The active buyer of the fixture orders. -/
def buyer2 : User := ⟨2, UserRole.buyer, true⟩

/-- An active lender. -/
def lender3 : User := ⟨3, UserRole.lender, true⟩

/-- An active administrator (passes every role-scoped ownership check). -/
def admin4 : User := ⟨4, UserRole.admin, true⟩

/-- A fully paid order. -/
def orderPaid : Order := ⟨1, 1, 2, 10000, OrderStatus.paid, none⟩

/-- The paid invoice of `orderPaid`. -/
def invoicePaid : Invoice := ⟨1, 1, 60, 10000, InvoiceStatus.paid, "INV-0-1", 0⟩

/-- A store holding one paid order with its paid invoice. -/
def dbPaid : DB := ⟨[orderPaid], [invoicePaid], [], [], [], 2, 1, 1, 1⟩

/-- A confirmed order. -/
def orderConf : Order := ⟨1, 1, 2, 10000, OrderStatus.confirmed, none⟩

/-- The unpaid invoice of `orderConf`, due on day 60. -/
def invoiceUnpaid : Invoice := ⟨1, 1, 60, 10000, InvoiceStatus.unpaid, "INV-0-1", 10000⟩

/-- A store holding one confirmed order with its unpaid invoice and no
loan activity. -/
def dbConf : DB := ⟨[orderConf], [invoiceUnpaid], [], [], [], 2, 1, 1, 1⟩

/-- A pending loan application of the supplier against `invoiceUnpaid`. -/
def appPending : LoanApplication := ⟨1, 1, 1, 12000, LoanApplicationStatus.pending, none⟩

/-- Fixture `dbConf` extended with the pending application `appPending`. -/
def dbApp : DB := ⟨[orderConf], [invoiceUnpaid], [appPending], [], [], 2, 1, 1, 2⟩

/-- An approved application for principal 1000. -/
def appApproved : LoanApplication := ⟨1, 1, 1, 1000, LoanApplicationStatus.approved, none⟩

/-- An active loan of 1000 at rate 5 funded by `lender3` against
`appApproved`. -/
def loanActive : Loan := ⟨1, 1, 3, 5, 30, 1000, LoanStatus.active⟩

/-- A store holding the approved application `appApproved` and its
active loan. -/
def dbLoan : DB := ⟨[orderConf], [invoiceUnpaid], [appApproved], [loanActive], [], 2, 2, 1, 2⟩

/-- The loan of `dbLoan` after repayment. -/
def loanRepaid : Loan := ⟨1, 1, 3, 5, 30, 1000, LoanStatus.repaid⟩

/-- A store whose only application is already decided and whose only
loan is already repaid. -/
def dbDecided : DB := ⟨[orderConf], [invoiceUnpaid], [appApproved], [loanRepaid], [], 2, 2, 1, 2⟩

/-- Claim C1, counterexample.  On the already-paid invoice of `dbPaid`
(no pending application), `update_invoice` with target status paid does
not fail with the AlreadyPaid error at all: it raises the `NameError`
on the unimported name `OrderStatus`.  And on the invoice of `dbApp`,
which a pending application references, `mock_pay_invoice` does not
fail with the BlockedByPendingLoan error and does mutate the invoice
table — so no pay operation of the code performs both guards, and one
failure path mutates state. -/
theorem claim1_counterexample :
    (update_invoice dbPaid 1 ⟨some InvoiceStatus.paid⟩ admin4).2 ≠
      Except.error (ApiError.http 400 "发票已支付") ∧
    (update_invoice dbPaid 1 ⟨some InvoiceStatus.paid⟩ admin4).2 =
      Except.error (ApiError.nameError "OrderStatus") ∧
    (mock_pay_invoice dbApp 1 admin4).2 ≠
      Except.error (ApiError.http 400 "该发票有未处理的贷款申请，无法支付") ∧
    (mock_pay_invoice dbApp 1 admin4).1.invoices ≠ dbApp.invoices := by
  refine ⟨?_, rfl, ?_, ?_⟩ <;> decide

/-- Claim C2, counterexample.  The paid invoice of `dbPaid` is moved
back to Unpaid by a plain status update, silently and successfully, and
the paid order of `dbPaid` is moved back to Pending the same way: the
Order and Invoice state machines are not monotonic. -/
theorem claim2_counterexample :
    (update_invoice dbPaid 1 ⟨some InvoiceStatus.unpaid⟩ admin4).2 =
      Except.ok { id := 1, orderId := 1, dueDate := 60, amount := 10000,
                  status := InvoiceStatus.unpaid, invoiceNumber := "INV-0-1",
                  remainingAmount := 0 } ∧
    (update_invoice dbPaid 1 ⟨some InvoiceStatus.unpaid⟩ admin4).1.findInvoice 1 =
      some { id := 1, orderId := 1, dueDate := 60, amount := 10000,
             status := InvoiceStatus.unpaid, invoiceNumber := "INV-0-1",
             remainingAmount := 0 } ∧
    (update_order dbPaid 1 ⟨some OrderStatus.pending, none⟩ supplier1 0).2 =
      Except.ok { id := 1, supplierId := 1, buyerId := 2, amount := 10000,
                  status := OrderStatus.pending, orderDescription := none } :=
  ⟨rfl, rfl, rfl⟩

/-- Claim C3, counterexample.  Confirming the already-confirmed order
of `dbConf` does not fail with InvalidTransition: it succeeds and
creates a second invoice for the same order. -/
theorem claim3_counterexample :
    (update_order dbConf 1 ⟨some OrderStatus.confirmed, none⟩ supplier1 5).2 =
      Except.ok { id := 1, supplierId := 1, buyerId := 2, amount := 10000,
                  status := OrderStatus.confirmed, orderDescription := none } ∧
    ((update_order dbConf 1 ⟨some OrderStatus.confirmed, none⟩ supplier1 5).1.invoices.filter
        fun v => v.orderId == 1).length = 2 :=
  ⟨rfl, rfl⟩

/-- Claim C4, counterexample.  The service-level
`record_transaction` does not fail with InvalidAmount on a non-positive
amount: called with amount -5 it appends the entry. -/
theorem claim4_counterexample :
    (record_transaction dbConf 7 LedgerType.debit (-5) "manual adjustment" none none).1.ledger =
      [{ id := 1, entityId := 7, type := LedgerType.debit, amount := -5,
         entryDescription := "manual adjustment", referenceId := none,
         referenceType := none }] :=
  rfl

/-- Claim C1, amended.  The guards are split across the two pay
endpoints, each performing only one of them: `update_invoice` with
target status Paid fails with the BlockedByPendingLoan error (400)
whenever a pending loan application references the invoice, and on that
failure it neither mutates any state nor posts any ledger entry (it has
no AlreadyPaid guard); `mock_pay_invoice` fails with the AlreadyPaid
error (400) whenever the invoice is already Paid, and on that failure
it neither mutates any state nor posts any ledger entry (it has no
pending-loan guard). -/
theorem claim1_theorem :
    (∀ (db : DB) (invoiceId : Nat) (iu : InvoiceUpdate) (u : User)
        (invoice : Invoice) (order : Order),
      db.findInvoice invoiceId = some invoice →
      db.findOrder invoice.orderId = some order →
      u.isActive = true →
      ¬(u.role = UserRole.buyer ∧ order.buyerId ≠ u.id) →
      iu.status = some InvoiceStatus.paid →
      0 < countPendingApplications db invoice.id →
      update_invoice db invoiceId iu u =
        (db, Except.error (ApiError.http 400 "该发票有未处理的贷款申请，无法支付"))) ∧
    (∀ (db : DB) (invoiceId : Nat) (u : User) (invoice : Invoice) (order : Order),
      db.findInvoice invoiceId = some invoice →
      db.findOrder invoice.orderId = some order →
      u.isActive = true →
      invoice.status = InvoiceStatus.paid →
      mock_pay_invoice db invoiceId u = (db, Except.error (ApiError.http 400 "发票已支付"))) := by
  constructor
  · intro db invoiceId iu u invoice order hinv horder hact hperm hst hpend
    simp only [update_invoice, requireActive, hact, if_true, hinv, horder, hst]
    rw [if_neg hperm, if_pos hpend]
  · intro db invoiceId u invoice order hinv horder hact hpaid
    simp only [mock_pay_invoice, requireActive, hact, if_true, hinv, horder]
    rw [if_pos hpaid]

/-- Witness for claim C1 at the fixtures: the pending-application guard
fires on `dbApp` and the already-paid guard fires on `dbPaid`, both
leaving the store untouched. -/
theorem claim1_witness :
    update_invoice dbApp 1 ⟨some InvoiceStatus.paid⟩ admin4 =
      (dbApp, Except.error (ApiError.http 400 "该发票有未处理的贷款申请，无法支付")) ∧
    mock_pay_invoice dbPaid 1 admin4 = (dbPaid, Except.error (ApiError.http 400 "发票已支付")) :=
  ⟨claim1_theorem.1 dbApp 1 ⟨some InvoiceStatus.paid⟩ admin4 invoiceUnpaid orderConf
      rfl rfl rfl (by decide) rfl (by decide),
   claim1_theorem.2 dbPaid 1 admin4 invoicePaid orderPaid rfl rfl rfl rfl⟩

/-- Claim C2, amended.  Only the LoanApplication and Loan state
machines are monotonic: re-deciding a non-pending application fails
with the AlreadyDecided error (400) and changes nothing, and repaying a
non-active loan fails with the InvalidLoanState error (400) and changes
nothing.  Order and Invoice are not monotonic: `update_order` and
`update_invoice` store any requested status without consulting the
current one, so Paid orders and invoices can move backward (see the
counterexample). -/
theorem claim2_theorem :
    (∀ (db : DB) (applicationId : Nat) (au : LoanApplicationUpdate) (u : User)
        (now : Int) (application : LoanApplication),
      u.isActive = true → u.role = UserRole.lender →
      db.findApplication applicationId = some application →
      application.status ≠ LoanApplicationStatus.pending →
      update_loan_application db applicationId au u now =
        (db, Except.error (ApiError.http 400 "该贷款申请已处理"))) ∧
    (∀ (db : DB) (loanId : Nat) (u : User) (loan : Loan) (application : LoanApplication),
      u.isActive = true →
      db.findLoan loanId = some loan →
      db.findApplication loan.applicationId = some application →
      ¬((u.role = UserRole.supplier ∨ u.role = UserRole.buyer) ∧
          application.applicantId ≠ u.id) →
      loan.status ≠ LoanStatus.active →
      repay_loan db loanId u = (db, Except.error (ApiError.http 400 "该贷款已偿还或违约"))) := by
  constructor
  · intro db applicationId au u now application hact hrole hfind hdecided
    simp only [update_loan_application, requireLender, requireActive, hact, if_true,
      hrole, if_pos rfl, hfind]
    rw [if_pos hdecided]
  · intro db loanId u loan application hact hloan happ hperm hstate
    simp only [repay_loan, requireActive, hact, if_true, hloan, happ]
    rw [if_neg hperm, if_pos hstate]

/-- Witness for claim C2 at the fixtures: the approved application of
`dbDecided` cannot be re-decided and its repaid loan cannot be repaid
again; both calls leave the store untouched. -/
theorem claim2_witness :
    update_loan_application dbDecided 1 ⟨LoanApplicationStatus.approved, none⟩ lender3 0 =
      (dbDecided, Except.error (ApiError.http 400 "该贷款申请已处理")) ∧
    repay_loan dbDecided 1 lender3 =
      (dbDecided, Except.error (ApiError.http 400 "该贷款已偿还或违约")) :=
  ⟨claim2_theorem.1 dbDecided 1 ⟨LoanApplicationStatus.approved, none⟩ lender3 0 appApproved
      rfl rfl rfl (by decide),
   claim2_theorem.2 dbDecided 1 lender3 loanRepaid appApproved
      rfl rfl rfl (by decide) (by decide)⟩

/-- Claim C3, amended.  `update_order` performs no transition
validation: a request with status Confirmed succeeds from any current
status — never failing with InvalidTransition — whenever the generated
invoice number `INV-<timestamp>-<orderId>` is not already stored, and
it then appends exactly one new invoice with that number, due date the
call time plus 30 days, amount and remaining amount both equal to the
order amount, and status Unpaid; an order can therefore accumulate more
than one invoice.  Invoice-number uniqueness is enforced by the
storage-layer unique constraint on `invoice_number`: when the generated
number is already stored (the same order re-confirmed within the same
timestamp second), the insert fails with `IntegrityError` and nothing
persists. -/
theorem claim3_theorem :
    (∀ (db : DB) (orderId : Nat) (ou : OrderUpdate) (u : User) (now : Int) (order : Order),
      u.isActive = true →
      db.findOrder orderId = some order →
      ¬(u.role = UserRole.supplier ∧ order.supplierId ≠ u.id) →
      ¬(u.role = UserRole.buyer ∧ order.buyerId ≠ u.id) →
      ou.status = some OrderStatus.confirmed →
      ou.updateDescription = none →
      (db.invoices.any fun v =>
        v.invoiceNumber == "INV-" ++ toString now ++ "-" ++ toString order.id) = false →
      update_order db orderId ou u now =
        ({ db with
            invoices := db.invoices ++
              [{ id := db.nextInvoiceId, orderId := order.id, dueDate := now + 30,
                 amount := order.amount, status := InvoiceStatus.unpaid,
                 invoiceNumber := "INV-" ++ toString now ++ "-" ++ toString order.id,
                 remainingAmount := order.amount }],
            nextInvoiceId := db.nextInvoiceId + 1,
            orders := db.orders.map fun x =>
              if x.id == order.id then { order with status := OrderStatus.confirmed } else x },
         Except.ok { order with status := OrderStatus.confirmed })) ∧
    (∀ (db : DB) (orderId : Nat) (ou : OrderUpdate) (u : User) (now : Int) (order : Order),
      u.isActive = true →
      db.findOrder orderId = some order →
      ¬(u.role = UserRole.supplier ∧ order.supplierId ≠ u.id) →
      ¬(u.role = UserRole.buyer ∧ order.buyerId ≠ u.id) →
      ou.status = some OrderStatus.confirmed →
      (db.invoices.any fun v =>
        v.invoiceNumber == "INV-" ++ toString now ++ "-" ++ toString order.id) = true →
      update_order db orderId ou u now =
        (db, Except.error (ApiError.integrityError "invoice_number"))) := by
  constructor
  · intro db orderId ou u now order hact hfind hp1 hp2 hst hdesc hno
    simp only [update_order, requireActive, hact, if_true, hfind, hst, hdesc, hno]
    rw [if_neg hp1, if_neg hp2]
    rfl
  · intro db orderId ou u now order hact hfind hp1 hp2 hst hyes
    simp only [update_order, requireActive, hact, if_true, hfind, hst, hyes]
    rw [if_neg hp1, if_neg hp2]

/-- Witness for claim C3: confirming the already-confirmed order of
`dbConf` at timestamp 5 succeeds and appends a second invoice with the
stated fields, while re-confirming it at timestamp 0 regenerates the
stored number INV-0-1 and fails with the IntegrityError, persisting
nothing. -/
theorem claim3_witness :
    update_order dbConf 1 ⟨some OrderStatus.confirmed, none⟩ supplier1 5 =
      ({ dbConf with
          invoices := dbConf.invoices ++
            [{ id := dbConf.nextInvoiceId, orderId := orderConf.id, dueDate := 5 + 30,
               amount := orderConf.amount, status := InvoiceStatus.unpaid,
               invoiceNumber := "INV-" ++ toString (5 : Int) ++ "-" ++ toString orderConf.id,
               remainingAmount := orderConf.amount }],
          nextInvoiceId := dbConf.nextInvoiceId + 1,
          orders := dbConf.orders.map fun x =>
            if x.id == orderConf.id then { orderConf with status := OrderStatus.confirmed }
            else x },
       Except.ok { orderConf with status := OrderStatus.confirmed }) ∧
    update_order dbConf 1 ⟨some OrderStatus.confirmed, none⟩ supplier1 0 =
      (dbConf, Except.error (ApiError.integrityError "invoice_number")) :=
  ⟨claim3_theorem.1 dbConf 1 ⟨some OrderStatus.confirmed, none⟩ supplier1 5 orderConf
      rfl rfl (by decide) (by decide) rfl rfl rfl,
   claim3_theorem.2 dbConf 1 ⟨some OrderStatus.confirmed, none⟩ supplier1 0 orderConf
      rfl rfl (by decide) (by decide) rfl rfl⟩

/-- Claim C4, amended.  Only the HTTP endpoint validates the amount:
`POST /api/ledger/record` fails with the InvalidAmount error (400) when
the amount is non-positive and otherwise appends exactly one entry for
the calling user with no other state change; the service-level
`record_transaction` that the workflows call performs no validation at
all and appends exactly one entry for every amount, including
non-positive ones, with no other state change. -/
theorem claim4_theorem :
    (∀ (db : DB) (u : User) (r : LedgerRecord),
      u.isActive = true → r.amount ≤ 0 →
      record_transaction_endpoint db u r =
        (db, Except.error (ApiError.http 400 "金额必须大于0"))) ∧
    (∀ (db : DB) (u : User) (r : LedgerRecord),
      u.isActive = true → 0 < r.amount →
      record_transaction_endpoint db u r =
        ({ db with
            ledger := db.ledger ++
              [{ id := db.nextLedgerId, entityId := u.id, type := r.type,
                 amount := r.amount, entryDescription := r.recordDescription,
                 referenceId := r.referenceId, referenceType := r.referenceType }],
            nextLedgerId := db.nextLedgerId + 1 },
         Except.ok
           { id := db.nextLedgerId, entityId := u.id, type := r.type,
             amount := r.amount, entryDescription := r.recordDescription,
             referenceId := r.referenceId, referenceType := r.referenceType })) ∧
    (∀ (db : DB) (e : Nat) (t : LedgerType) (a : ℚ) (d : String)
        (ri : Option Nat) (rt : Option String),
      record_transaction db e t a d ri rt =
        ({ db with
            ledger := db.ledger ++
              [{ id := db.nextLedgerId, entityId := e, type := t, amount := a,
                 entryDescription := d, referenceId := ri, referenceType := rt }],
            nextLedgerId := db.nextLedgerId + 1 },
         { id := db.nextLedgerId, entityId := e, type := t, amount := a,
           entryDescription := d, referenceId := ri, referenceType := rt })) := by
  refine ⟨?_, ?_, fun db e t a d ri rt => rfl⟩
  · intro db u r hact hle
    simp only [record_transaction_endpoint, requireActive, hact, if_true]
    rw [if_pos hle]
  · intro db u r hact hpos
    obtain ⟨t, a, d, ri, rt⟩ := r
    simp only [record_transaction_endpoint, requireActive, hact, if_true]
    rw [if_neg (not_le.mpr hpos)]
    cases t <;> rfl

/-- Witness for claim C4: the endpoint rejects a -3 debit on the
untouched store and accepts a +3 debit by appending exactly one entry. -/
theorem claim4_witness :
    record_transaction_endpoint dbConf lender3 ⟨LedgerType.debit, -3, "adj", none, none⟩ =
      (dbConf, Except.error (ApiError.http 400 "金额必须大于0")) ∧
    record_transaction_endpoint dbConf lender3 ⟨LedgerType.debit, 3, "adj", none, none⟩ =
      ({ dbConf with
          ledger := dbConf.ledger ++
            [{ id := dbConf.nextLedgerId, entityId := lender3.id, type := LedgerType.debit,
               amount := 3, entryDescription := "adj", referenceId := none,
               referenceType := none }],
          nextLedgerId := dbConf.nextLedgerId + 1 },
       Except.ok
         { id := dbConf.nextLedgerId, entityId := lender3.id, type := LedgerType.debit,
           amount := 3, entryDescription := "adj", referenceId := none,
           referenceType := none }) :=
  ⟨claim4_theorem.1 dbConf lender3 ⟨LedgerType.debit, -3, "adj", none, none⟩ rfl (by norm_num),
   claim4_theorem.2.1 dbConf lender3 ⟨LedgerType.debit, 3, "adj", none, none⟩ rfl (by norm_num)⟩

/-- Claim C5, divergence theorem for the code bug.  On every accepted
payment path the handlers never reach the order update or the ledger
calls, because `order.status = OrderStatus.PAID` references the
unimported name `OrderStatus` and raises `NameError`: `update_invoice`
(which saves nothing before that line) returns the error with the store
untouched, and `mock_pay_invoice` (which saves the invoice first)
returns the error with the invoice marked paid but the order and the
ledger untouched — the claimed invoice-paid, order-paid, two-entry
outcome is unreachable. -/
theorem claim5_theorem :
    (∀ (db : DB) (invoiceId : Nat) (iu : InvoiceUpdate) (u : User)
        (invoice : Invoice) (order : Order),
      db.findInvoice invoiceId = some invoice →
      db.findOrder invoice.orderId = some order →
      u.isActive = true →
      ¬(u.role = UserRole.buyer ∧ order.buyerId ≠ u.id) →
      iu.status = some InvoiceStatus.paid →
      countPendingApplications db invoice.id = 0 →
      update_invoice db invoiceId iu u =
        (db, Except.error (ApiError.nameError "OrderStatus"))) ∧
    (∀ (db : DB) (invoiceId : Nat) (u : User) (invoice : Invoice) (order : Order),
      db.findInvoice invoiceId = some invoice →
      db.findOrder invoice.orderId = some order →
      u.isActive = true →
      invoice.status ≠ InvoiceStatus.paid →
      mock_pay_invoice db invoiceId u =
        (db.saveInvoice { invoice with status := InvoiceStatus.paid, remainingAmount := 0 },
         Except.error (ApiError.nameError "OrderStatus"))) := by
  constructor
  · intro db invoiceId iu u invoice order hinv horder hact hperm hst hpend
    simp only [update_invoice, requireActive, hact, if_true, hinv, horder, hst]
    rw [if_neg hperm, if_neg (by rw [hpend]; exact lt_irrefl 0)]
  · intro db invoiceId u invoice order hinv horder hact hnot
    simp only [mock_pay_invoice, requireActive, hact, if_true, hinv, horder]
    rw [if_neg hnot]

/-- Witness for claim C5: paying the unpaid, unencumbered invoice of
`dbConf` through either endpoint ends in the `NameError`; the mock
endpoint additionally leaves the invoice saved as paid. -/
theorem claim5_witness :
    update_invoice dbConf 1 ⟨some InvoiceStatus.paid⟩ buyer2 =
      (dbConf, Except.error (ApiError.nameError "OrderStatus")) ∧
    mock_pay_invoice dbConf 1 buyer2 =
      (dbConf.saveInvoice
        { invoiceUnpaid with status := InvoiceStatus.paid, remainingAmount := 0 },
       Except.error (ApiError.nameError "OrderStatus")) :=
  ⟨claim5_theorem.1 dbConf 1 ⟨some InvoiceStatus.paid⟩ buyer2 invoiceUnpaid orderConf
      rfl rfl rfl (by decide) rfl rfl,
   claim5_theorem.2 dbConf 1 buyer2 invoiceUnpaid orderConf rfl rfl rfl (by decide)⟩

/-- Claim C6.  The source gate returns exactly the rendering of the
five ordered, short-circuiting spec checks — invoice exists, invoice
unpaid, amount within 1.2 times the invoice amount, amount positive,
no pending application — and an amount exactly equal to 1.2 times the
invoice amount passes the ceiling check.  Determinism is immediate:
the verdict is a function of the store and the amount. -/
theorem claim6_theorem :
    (∀ (db : DB) (invoiceId : Nat) (a : ℚ),
      check_loan_eligibility db invoiceId a =
        eligibilityResult (eligibility_spec db invoiceId a)) ∧
    (∀ (db : DB) (invoiceId : Nat) (a : ℚ) (invoice : Invoice),
      db.findInvoice invoiceId = some invoice →
      invoice.status = InvoiceStatus.unpaid →
      countPendingApplications db invoiceId = 0 →
      0 < a →
      a = invoice.amount * (12 / 10) →
      check_loan_eligibility db invoiceId a = (true, "符合贷款申请条件")) := by
  have key : ∀ (db : DB) (invoiceId : Nat) (a : ℚ),
      check_loan_eligibility db invoiceId a =
        eligibilityResult (eligibility_spec db invoiceId a) := by
    intro db invoiceId a
    unfold check_loan_eligibility eligibility_spec
    cases db.findInvoice invoiceId with
    | none => rfl
    | some invoice =>
        dsimp only
        by_cases h1 : invoice.status ≠ InvoiceStatus.unpaid
        · rw [if_pos h1, if_pos h1]; rfl
        · rw [if_neg h1, if_neg h1]
          by_cases h2 : a ≤ invoice.amount * (12 / 10)
          · rw [if_neg (not_lt.mpr h2), if_neg (not_not_intro h2)]
            by_cases h3 : a ≤ 0
            · rw [if_pos h3, if_pos (not_lt.mpr h3)]; rfl
            · rw [if_neg h3, if_neg (not_not_intro (not_le.mp h3))]
              by_cases h4 : 0 < countPendingApplications db invoiceId
              · rw [if_pos h4, if_pos h4]; rfl
              · rw [if_neg h4, if_neg h4]; rfl
          · rw [if_pos (not_le.mp h2), if_pos h2]; rfl
  refine ⟨key, ?_⟩
  intro db invoiceId a invoice hinv hunpaid hpend hpos hceil
  rw [key]
  unfold eligibility_spec
  rw [hinv]
  dsimp only
  rw [if_neg (not_not_intro hunpaid), if_neg (not_not_intro (le_of_eq hceil)),
    if_neg (not_not_intro hpos), if_neg (by rw [hpend]; exact lt_irrefl 0)]
  rfl

/-- Witness for claim C6: on the unpaid 10000 invoice of `dbConf`, a
request of exactly 12000 (1.2 times the amount) is eligible. -/
theorem claim6_witness :
    check_loan_eligibility dbConf 1 12000 = (true, "符合贷款申请条件") :=
  claim6_theorem.2 dbConf 1 12000 invoiceUnpaid rfl rfl rfl (by norm_num)
    (by norm_num [invoiceUnpaid])

/-- Claim C7.  For an application whose invoice resolves, the risk
score is exactly the clamp to the interval from 0 to 100 of the base 70
plus the days-until-due bonus plus the amount-ratio adjustment, with
the days until due floored at 1. -/
theorem claim7_theorem :
    ∀ (db : DB) (application : LoanApplication) (now : Int) (invoice : Invoice),
      db.findInvoice application.invoiceId = some invoice →
      calculate_risk_score db application now =
        max 0 (min 100
          (70 + daysBonus (max (invoice.dueDate - now) 1) +
            ratioAdjustment (application.amountRequested / invoice.amount))) := by
  intro db application now invoice hinv
  unfold calculate_risk_score daysBonus ratioAdjustment
  rw [hinv]
  dsimp only
  split_ifs <;> exact congrArg (fun s : ℚ => max 0 (min 100 s)) (by ring)

/-- Witness for claim C7 at the fixtures: the pending application of
`dbApp` (12000 against the 10000 invoice due on day 60, scored at day
0) gets the bracket formula, and in particular an 8000 request (ratio
exactly 0.8) scores 5 points more than an 8100 request (ratio 0.81). -/
theorem claim7_witness :
    calculate_risk_score dbApp appPending 0 =
      max 0 (min 100
        (70 + daysBonus (max (invoiceUnpaid.dueDate - 0) 1) +
          ratioAdjustment (appPending.amountRequested / invoiceUnpaid.amount))) ∧
    calculate_risk_score dbApp ⟨2, 1, 1, 8000, LoanApplicationStatus.pending, none⟩ 0 =
      calculate_risk_score dbApp ⟨3, 1, 1, 8100, LoanApplicationStatus.pending, none⟩ 0 + 5 := by
  refine ⟨claim7_theorem dbApp appPending 0 invoiceUnpaid rfl, ?_⟩
  rw [claim7_theorem dbApp ⟨2, 1, 1, 8000, LoanApplicationStatus.pending, none⟩ 0
      invoiceUnpaid rfl,
    claim7_theorem dbApp ⟨3, 1, 1, 8100, LoanApplicationStatus.pending, none⟩ 0
      invoiceUnpaid rfl]
  norm_num [daysBonus, ratioAdjustment, invoiceUnpaid]

/-- Claim C8.  Deciding a non-pending application fails with the
AlreadyDecided error (400) and changes nothing; approving a pending
application (the update payload carries no interest rate or repayment
date field, so the workflow defaults are always used) stores the
application as Approved and, in the same call, appends exactly one loan
— lender the approving actor, principal the requested amount, rate the
default 5, repayment date the default now plus 30 days, status Active —
and exactly two ledger entries: a credit to the applicant and a debit
to the lender for the principal, both referencing the loan. -/
theorem claim8_theorem :
    (∀ (db : DB) (applicationId : Nat) (au : LoanApplicationUpdate) (u : User)
        (now : Int) (application : LoanApplication),
      u.isActive = true → u.role = UserRole.lender →
      db.findApplication applicationId = some application →
      application.status ≠ LoanApplicationStatus.pending →
      update_loan_application db applicationId au u now =
        (db, Except.error (ApiError.http 400 "该贷款申请已处理"))) ∧
    (∀ (db : DB) (applicationId : Nat) (u : User) (now : Int)
        (application : LoanApplication) (invoice : Invoice),
      u.isActive = true → u.role = UserRole.lender →
      db.findApplication applicationId = some application →
      application.status = LoanApplicationStatus.pending →
      db.findInvoice application.invoiceId = some invoice →
      update_loan_application db applicationId ⟨LoanApplicationStatus.approved, none⟩ u now =
        ({ db with
            applications := db.applications.map fun x =>
              if x.id == application.id
              then { application with status := LoanApplicationStatus.approved } else x,
            loans := db.loans ++
              [{ id := db.nextLoanId, applicationId := application.id, lenderId := u.id,
                 interestRate := 5, repaymentDate := now + 30,
                 amount := application.amountRequested, status := LoanStatus.active }],
            nextLoanId := db.nextLoanId + 1,
            ledger := db.ledger ++
              [{ id := db.nextLedgerId, entityId := application.applicantId,
                 type := LedgerType.credit, amount := application.amountRequested,
                 entryDescription := "贷款批准: 申请ID " ++ toString application.id,
                 referenceId := some db.nextLoanId, referenceType := some "loan" }] ++
              [{ id := db.nextLedgerId + 1, entityId := u.id,
                 type := LedgerType.debit, amount := application.amountRequested,
                 entryDescription := "发放贷款: 申请ID " ++ toString application.id,
                 referenceId := some db.nextLoanId, referenceType := some "loan" }],
            nextLedgerId := db.nextLedgerId + 1 + 1 },
         Except.ok { application with status := LoanApplicationStatus.approved })) := by
  constructor
  · intro db applicationId au u now application hact hrole hfind hdecided
    simp only [update_loan_application, requireLender, requireActive, hact, if_true,
      hrole, if_pos rfl, hfind]
    rw [if_pos hdecided]
  · intro db applicationId u now application invoice hact hrole hfind hpending hinvoice
    simp only [update_loan_application, requireLender, requireActive, hact, if_true,
      hrole, if_pos rfl, hfind]
    rw [if_neg (not_not_intro hpending)]
    have hinv1 : (db.saveApplication
        { application with status := LoanApplicationStatus.approved }).findInvoice
          application.invoiceId = some invoice := hinvoice
    rw [hinv1]
    rfl

/-- Witness for claim C8: approving the pending application of `dbApp`
produces the approved application, the default-parameter loan and the
paired 12000 ledger entries. -/
theorem claim8_witness :
    update_loan_application dbApp 1 ⟨LoanApplicationStatus.approved, none⟩ lender3 0 =
      ({ dbApp with
          applications := dbApp.applications.map fun x =>
            if x.id == appPending.id
            then { appPending with status := LoanApplicationStatus.approved } else x,
          loans := dbApp.loans ++
            [{ id := dbApp.nextLoanId, applicationId := appPending.id, lenderId := lender3.id,
               interestRate := 5, repaymentDate := 0 + 30,
               amount := appPending.amountRequested, status := LoanStatus.active }],
          nextLoanId := dbApp.nextLoanId + 1,
          ledger := dbApp.ledger ++
            [{ id := dbApp.nextLedgerId, entityId := appPending.applicantId,
               type := LedgerType.credit, amount := appPending.amountRequested,
               entryDescription := "贷款批准: 申请ID " ++ toString appPending.id,
               referenceId := some dbApp.nextLoanId, referenceType := some "loan" }] ++
            [{ id := dbApp.nextLedgerId + 1, entityId := lender3.id,
               type := LedgerType.debit, amount := appPending.amountRequested,
               entryDescription := "发放贷款: 申请ID " ++ toString appPending.id,
               referenceId := some dbApp.nextLoanId, referenceType := some "loan" }],
          nextLedgerId := dbApp.nextLedgerId + 1 + 1 },
       Except.ok { appPending with status := LoanApplicationStatus.approved }) :=
  claim8_theorem.2 dbApp 1 lender3 0 appPending invoiceUnpaid rfl rfl rfl rfl rfl

/-- Claim C9.  Repaying a non-active loan fails with the
InvalidLoanState error (400) and changes nothing; repaying an active
loan stores it as Repaid and appends exactly two ledger entries for the
total due of principal times one plus rate over 100 — a debit to the
borrower and a credit to the lender — both referencing the loan. -/
theorem claim9_theorem :
    (∀ (db : DB) (loanId : Nat) (u : User) (loan : Loan) (application : LoanApplication),
      u.isActive = true →
      db.findLoan loanId = some loan →
      db.findApplication loan.applicationId = some application →
      ¬((u.role = UserRole.supplier ∨ u.role = UserRole.buyer) ∧
          application.applicantId ≠ u.id) →
      loan.status ≠ LoanStatus.active →
      repay_loan db loanId u = (db, Except.error (ApiError.http 400 "该贷款已偿还或违约"))) ∧
    (∀ (db : DB) (loanId : Nat) (u : User) (loan : Loan) (application : LoanApplication),
      u.isActive = true →
      db.findLoan loanId = some loan →
      db.findApplication loan.applicationId = some application →
      ¬((u.role = UserRole.supplier ∨ u.role = UserRole.buyer) ∧
          application.applicantId ≠ u.id) →
      loan.status = LoanStatus.active →
      repay_loan db loanId u =
        ({ db with
            loans := db.loans.map fun x =>
              if x.id == loan.id then { loan with status := LoanStatus.repaid } else x,
            ledger := db.ledger ++
              [{ id := db.nextLedgerId, entityId := application.applicantId,
                 type := LedgerType.debit,
                 amount := loan.amount * (1 + loan.interestRate / 100),
                 entryDescription := "偿还贷款: 贷款ID " ++ toString loan.id,
                 referenceId := some loan.id, referenceType := some "loan" }] ++
              [{ id := db.nextLedgerId + 1, entityId := loan.lenderId,
                 type := LedgerType.credit,
                 amount := loan.amount * (1 + loan.interestRate / 100),
                 entryDescription := "收到贷款还款: 贷款ID " ++ toString loan.id,
                 referenceId := some loan.id, referenceType := some "loan" }],
            nextLedgerId := db.nextLedgerId + 1 + 1 },
         Except.ok { loanId := loan.id, amount := loan.amount,
                     interest := loan.amount * (loan.interestRate / 100),
                     totalRepaid := loan.amount * (1 + loan.interestRate / 100) })) := by
  constructor
  · intro db loanId u loan application hact hloan happ hperm hstate
    simp only [repay_loan, requireActive, hact, if_true, hloan, happ]
    rw [if_neg hperm, if_pos hstate]
  · intro db loanId u loan application hact hloan happ hperm hactive
    simp only [repay_loan, requireActive, hact, if_true, hloan, happ]
    rw [if_neg hperm, if_neg (not_not_intro hactive)]
    rfl

/-- Witness for claim C9: repaying the active 1000-at-rate-5 loan of
`dbLoan` stores it as Repaid and posts the paired entries, whose amount
evaluates to 1050 as scenario 3 of the spec requires. -/
theorem claim9_witness :
    repay_loan dbLoan 1 lender3 =
      ({ dbLoan with
          loans := dbLoan.loans.map fun x =>
            if x.id == loanActive.id then { loanActive with status := LoanStatus.repaid }
            else x,
          ledger := dbLoan.ledger ++
            [{ id := dbLoan.nextLedgerId, entityId := appApproved.applicantId,
               type := LedgerType.debit,
               amount := loanActive.amount * (1 + loanActive.interestRate / 100),
               entryDescription := "偿还贷款: 贷款ID " ++ toString loanActive.id,
               referenceId := some loanActive.id, referenceType := some "loan" }] ++
            [{ id := dbLoan.nextLedgerId + 1, entityId := loanActive.lenderId,
               type := LedgerType.credit,
               amount := loanActive.amount * (1 + loanActive.interestRate / 100),
               entryDescription := "收到贷款还款: 贷款ID " ++ toString loanActive.id,
               referenceId := some loanActive.id, referenceType := some "loan" }],
          nextLedgerId := dbLoan.nextLedgerId + 1 + 1 },
       Except.ok { loanId := loanActive.id, amount := loanActive.amount,
                   interest := loanActive.amount * (loanActive.interestRate / 100),
                   totalRepaid := loanActive.amount * (1 + loanActive.interestRate / 100) }) ∧
    loanActive.amount * (1 + loanActive.interestRate / 100) = 1050 :=
  ⟨claim9_theorem.2 dbLoan 1 lender3 loanActive appApproved rfl rfl rfl (by decide) rfl,
   by norm_num [loanActive]⟩

/-- Claim C10.  When the invoice referenced by an application does not
resolve, the risk scorer returns exactly 50 instead of failing or
applying the bracket formula. -/
theorem claim10_theorem :
    ∀ (db : DB) (application : LoanApplication) (now : Int),
      db.findInvoice application.invoiceId = none →
      calculate_risk_score db application now = 50 := by
  intro db application now hnone
  unfold calculate_risk_score
  rw [hnone]

/-- Witness for claim C10: an application of `dbConf` pointing at the
nonexistent invoice 99 scores exactly 50. -/
theorem claim10_witness :
    calculate_risk_score dbConf ⟨9, 1, 99, 5000, LoanApplicationStatus.pending, none⟩ 0 = 50 :=
  claim10_theorem dbConf ⟨9, 1, 99, 5000, LoanApplicationStatus.pending, none⟩ 0 rfl

end SCF
